import Mathlib

/-!
Shallow embedding of the staff Lambda handler
(`src/terraform/aws/ecs/example/lambda/src/staff/src/main.rs`).

The handler exposes one resource path `/staff` with two operations:
`GET /staff` (single lookup by `staff_id`, or a paginated listing) and
`POST /staff` (create).  The embedding models:

* the `Staff` record and `Pagination` structs;
* serde-style deserialization of the create payload (`event.payload::<Staff>()`);
* the page-number resolution from the `page` query parameter, including
  Rust's `i32::from_str` semantics (optional sign, decimal digits, 32-bit
  range check);
* i32 two's-complement arithmetic (`wrap32`) for the offset computation
  `page_num * 10` and the `page_num + 1` / `page_num - 1` pagination fields
  (release-profile wrapping semantics);
* the three data-access operations against a pure list-of-rows store;
* the `(method, path)` router with its panicking catch-all.

Panics (`panic!`, `Option::unwrap` on `None`) are modelled by the
`RunResult.panicked` constructor; `Result::Err` propagation by `Except`.
-/

/-- A JSON value; numbers are modelled as integers, which covers every value
the handler's payload deserialization can accept for its integer field
(a fractional number fails `i32` deserialization exactly as a non-number
does, and the five remaining fields are strings). -/
inductive Json where
  | null : Json
  | bool (b : Bool) : Json
  | num (n : Int) : Json
  | str (s : String) : Json
  | arr (elems : List Json) : Json
  | obj (fields : List (String × Json)) : Json
deriving Repr

/-- The `Staff` struct of the source: `staff_id: i32` plus five
`Option<String>` text fields.  `staff_id` is kept as an `Int`; every value
put into it is range-checked to i32 at the deserialization boundary. -/
structure Staff where
  staff_id : Int
  first_name : Option String
  last_name : Option String
  email : Option String
  username : Option String
  password : Option String
deriving Repr, DecidableEq

/-- The `Pagination` struct of the source (`page`, `next`, `prev`, all i32). -/
structure Pagination where
  page : Int
  next : Int
  prev : Int
deriving Repr, DecidableEq

/-- One row of the backing `staff` table: the `Staff` fields plus the
store-side `store_id`, `address_id` and `last_update` columns. -/
structure DbRow where
  staff_id : Int
  first_name : Option String
  last_name : Option String
  email : Option String
  username : Option String
  password : Option String
  store_id : Int
  address_id : Int
  last_update : Int
deriving Repr, DecidableEq

/-- Projection of a table row onto the six columns the handler selects. -/
def toStaff (r : DbRow) : Staff :=
  ⟨r.staff_id, r.first_name, r.last_name, r.email, r.username, r.password⟩

/-- Outcome of running a handler that may `panic!` (or `unwrap` a `None`). -/
inductive RunResult (α : Type) where
  | ok (val : α) : RunResult α
  | panicked (msg : String) : RunResult α
deriving Repr, DecidableEq

/-- An HTTP response: status, headers, body (`Response<String>`). -/
structure HttpResponse where
  status : Nat
  headers : List (String × String)
  body : String
deriving Repr, DecidableEq

/-! ### i32 arithmetic -/

/-- Two's-complement reduction of an integer into the i32 range
`[-2^31, 2^31)`: the release-profile semantics of Rust's `i32` `*`, `+`, `-`. -/
def wrap32 (z : Int) : Int :=
  (z + 2147483648) % 4294967296 - 2147483648

/-! ### `page` parameter parsing (`num.parse::<i32>()`) -/

/-- Value of a non-empty all-decimal-digit character list; `none` if the list
is empty or contains a non-digit.  Mirrors the digit loop of Rust's
`i32::from_str` (which rejects on the first non-digit). -/
def digitsValAux (acc : Nat) : List Char → Option Nat
  | [] => some acc
  | c :: cs =>
      if c.isDigit then digitsValAux (acc * 10 + (c.toNat - 48)) cs else none

/-- `digitsVal cs` is the numeric value of `cs` when `cs` is a non-empty
string of decimal digits, `none` otherwise. -/
def digitsVal : List Char → Option Nat
  | [] => none
  | cs => digitsValAux 0 cs

/-- Rust's `str::parse::<i32>`: optional `+`/`-` sign, then one or more
decimal digits, with the value required to fit in i32
(`-2147483648 ..= 2147483647`); anything else is an error (`none`).
Overflow during accumulation is an error, which coincides with computing the
exact value and range-checking it. -/
def parseI32 (s : String) : Option Int :=
  match s.data with
  | [] => none
  | c :: rest =>
      if c = '+' then
        (digitsVal rest).bind fun v =>
          if v ≤ 2147483647 then some (v : Int) else none
      else if c = '-' then
        (digitsVal rest).bind fun v =>
          if v ≤ 2147483648 then some (-(v : Int)) else none
      else
        (digitsVal (c :: rest)).bind fun v =>
          if v ≤ 2147483647 then some (v : Int) else none

/-- Rust's `num.starts_with("-")`: the first character is `'-'`. -/
def startsWithNeg (s : String) : Bool :=
  match s.data with
  | [] => false
  | c :: _ => c = '-'

/-- The nonnegative numeric reading of a `page` string: optional leading
`+`, then decimal digits.  Used only to state the implicit upper-bound
claim; it is the exact-value function that `parseI32` range-checks. -/
def numericVal (s : String) : Option Nat :=
  match s.data with
  | [] => none
  | c :: rest => if c = '+' then digitsVal rest else digitsVal (c :: rest)

/-- Resolution of the `page` query parameter in `get_staff`:

```rust
let page_num = match params.first("page") {
    Some(num) if num.starts_with("-") => 0,
    Some(num) => num.parse::<i32>().unwrap_or(0),
    _ => 0,
};
``` -/
def resolvePage : Option String → Int
  | none => 0
  | some s => if startsWithNeg s then 0 else (parseI32 s).getD 0

/-! ### Pagination -/

/-- `get_list_staff`'s `let offset = page_num * 10;` — i32 multiplication. -/
def computeOffset (page_num : Int) : Int :=
  wrap32 (page_num * 10)

/-- The `Pagination` value `get_staff` hands to the renderer:
`{ page: page_num, next: page_num + 1, prev: page_num - 1 }` in i32. -/
def mkPagination (page_num : Int) : Pagination :=
  { page := page_num
    next := wrap32 (page_num + 1)
    prev := wrap32 (page_num - 1) }

/-! ### serde deserialization of the create payload -/

/-- First binding of key `k` in a JSON object's field list. -/
def lookupField (l : List (String × Json)) (k : String) : Option Json :=
  (l.find? fun kv => kv.1 == k).map (·.2)

/-- serde deserialization of one `Option<String>` field: a missing key or an
explicit `null` is `None`, a string is `Some`, any other value is a type
error. -/
def getOptString (l : List (String × Json)) (k : String) :
    Except String (Option String) :=
  match lookupField l k with
  | none => .ok none
  | some .null => .ok none
  | some (.str s) => .ok (some s)
  | some _ => .error ("invalid type for field " ++ k)

/-- serde-derived deserialization of `Staff` from a JSON value
(`event.payload::<Staff>()`'s JSON path): the body must be an object;
`staff_id: i32` is a required field and must be an in-range integer; the
five `Option<String>` fields are each optional; unknown keys are ignored.
Duplicate keys are not modelled (the first occurrence is used). -/
def deserializeStaff (j : Json) : Except String Staff :=
  match j with
  | .obj l =>
      match lookupField l "staff_id" with
      | none => .error "missing field staff_id"
      | some (.num n) =>
          if -2147483648 ≤ n ∧ n ≤ 2147483647 then
            match getOptString l "first_name" with
            | .error e => .error e
            | .ok fn =>
              match getOptString l "last_name" with
              | .error e => .error e
              | .ok ln =>
                match getOptString l "email" with
                | .error e => .error e
                | .ok em =>
                  match getOptString l "username" with
                  | .error e => .error e
                  | .ok un =>
                    match getOptString l "password" with
                    | .error e => .error e
                    | .ok pw => .ok ⟨n, fn, ln, em, un, pw⟩
          else .error "invalid value: integer out of range for i32"
      | some _ => .error "invalid type for field staff_id"
  | _ => .error "invalid type: expected struct Staff"

/-! ### Data access -/

/-- The store-assigned auto-increment identity for a new row, modelled as
one more than the largest existing id (0-based start). -/
def nextId (db : List DbRow) : Int :=
  (db.map (·.staff_id)).foldr max 0 + 1

/-- The parameterized insert of `post_staff`: the five text fields from the
payload, fixed `store_id = 1` and `address_id = 61`; the store assigns the
identity and the `last_update` timestamp `ts`. -/
def insertStaff (db : List DbRow) (st : Staff) (ts : Int) : List DbRow :=
  db ++ [⟨nextId db, st.first_name, st.last_name, st.email, st.username,
          st.password, 1, 61, ts⟩]

/-- `post_staff`: deserialize the body (panicking on a missing body or a
parse failure), run the insert, respond `303` with `Location: /staff` and an
empty body.  Returns the updated store and the response. -/
def post_staff (body : Option Json) (db : List DbRow) (ts : Int) :
    RunResult (List DbRow × HttpResponse) :=
  match body with
  | none => .panicked "Can't create staff from input"
  | some j =>
      match deserializeStaff j with
      | .error _ => .panicked "Can't create staff from input"
      | .ok st =>
          .ok (insertStaff db st ts,
               { status := 303
                 headers := [("Location", "/staff")]
                 body := "" })

/-- `get_single_staff`: `SELECT ... WHERE staff_id=:staff_id` via
`exec_first` (the first matching row, if any), then `.unwrap()` — a miss is
a panic, a hit is returned as a one-element vector.  The query-string id is
coerced by the store to the integer primary key, modelled here as the
integer `sid`. -/
def get_single_staff (db : List DbRow) (sid : Int) : RunResult (List Staff) :=
  match (db.filter fun r => r.staff_id == sid).head? with
  | none => .panicked "called Option::unwrap on a None value"
  | some row => .ok [toStaff row]

/-- `ORDER BY last_update desc`: row `a` may precede row `b` iff its
`last_update` is at least `b`'s. -/
def updDescRel (a b : DbRow) : Prop :=
  b.last_update ≤ a.last_update

instance : DecidableRel updDescRel := fun a b =>
  inferInstanceAs (Decidable (b.last_update ≤ a.last_update))

instance : IsTotal DbRow updDescRel :=
  ⟨fun a b => le_total b.last_update a.last_update⟩

instance : IsTrans DbRow updDescRel :=
  ⟨fun _ _ _ hab hbc => le_trans hbc hab⟩

/-- The store's `ORDER BY last_update desc` scan order (one admissible
total order; ties are broken arbitrarily by the store). -/
def sortByUpdateDesc (db : List DbRow) : List DbRow :=
  List.insertionSort updDescRel db

/-- The rows selected by `LIMIT 10 OFFSET offset` over the ordered scan. -/
def selectPage (db : List DbRow) (offset : Nat) : List DbRow :=
  ((sortByUpdateDesc db).drop offset).take 10

/-- The `fetchPage` query of `get_list_staff`:
`SELECT ... ORDER BY last_update desc LIMIT 10 OFFSET :offset`, each row
mapped to a `Staff`. -/
def fetchPage (db : List DbRow) (offset : Nat) : List Staff :=
  (selectPage db offset).map toStaff

/-! ### Router -/

/-- The two route targets of the service. -/
inductive RouteTarget where
  | readFlow : RouteTarget
  | createFlow : RouteTarget
deriving Repr, DecidableEq

/-- The `router` dispatch:

```rust
match (method, path) {
    ("GET", "/staff") => get_staff(event, pool),
    ("POST", "/staff") => post_staff(event, pool),
    _ => panic!("Failed to match method and path"),
}
``` -/
def router (method path : String) : RunResult RouteTarget :=
  match method, path with
  | "GET", "/staff" => .ok .readFlow
  | "POST", "/staff" => .ok .createFlow
  | _, _ => .panicked "Failed to match method and path"

/-! ### Theorems -/

/-- Helper: `wrap32` is the identity on values already in the i32 range. -/
theorem wrap32_eq_self (z : Int) (h0 : -2147483648 ≤ z) (h1 : z < 2147483648) :
    wrap32 z = z := by
  unfold wrap32
  omega

/-- C1 (counterexample): a create body that is StaffRecord-shaped but lacks
`staff_id` — all five optional text fields present, `staff_id` absent — is
NOT accepted: `staff_id: i32` is a required field for the serde-derived
deserializer, so payload parsing fails and `post_staff` panics. -/
theorem post_staff_rejects_missing_staff_id :
    post_staff (some (Json.obj
      [("first_name", Json.str "Ana"), ("last_name", Json.str "Lee"),
       ("email", Json.str "a@x.com"), ("username", Json.str "ana"),
       ("password", Json.str "p")])) [] 0
      = RunResult.panicked "Can't create staff from input" := rfl

/-- C1 (amended): payload parsing requires `staff_id` to be present as an
in-range integer — its absence is a fatal parse failure, not ignored; the
five text fields are individually optional (absent keys deserialize to
`none`, present strings to `some`). -/
theorem deserializeStaff_spec :
    (∀ l : List (String × Json), lookupField l "staff_id" = none →
      deserializeStaff (Json.obj l) = Except.error "missing field staff_id") ∧
    (∀ n : Int, -2147483648 ≤ n → n ≤ 2147483647 →
      deserializeStaff (Json.obj [("staff_id", Json.num n)]) =
        Except.ok ⟨n, none, none, none, none, none⟩) ∧
    (∀ (n : Int) (fn ln em un pw : String), -2147483648 ≤ n → n ≤ 2147483647 →
      deserializeStaff (Json.obj
        [("staff_id", Json.num n), ("first_name", Json.str fn),
         ("last_name", Json.str ln), ("email", Json.str em),
         ("username", Json.str un), ("password", Json.str pw)]) =
        Except.ok ⟨n, some fn, some ln, some em, some un, some pw⟩) := by
  refine ⟨?_, ?_, ?_⟩
  · intro l h
    simp only [deserializeStaff, h]
  · intro n h1 h2
    have hred : deserializeStaff (Json.obj [("staff_id", Json.num n)]) =
        if -2147483648 ≤ n ∧ n ≤ 2147483647 then
          Except.ok ⟨n, none, none, none, none, none⟩
        else Except.error "invalid value: integer out of range for i32" := rfl
    rw [hred, if_pos ⟨h1, h2⟩]
  · intro n fn ln em un pw h1 h2
    have hred : deserializeStaff (Json.obj
        [("staff_id", Json.num n), ("first_name", Json.str fn),
         ("last_name", Json.str ln), ("email", Json.str em),
         ("username", Json.str un), ("password", Json.str pw)]) =
        if -2147483648 ≤ n ∧ n ≤ 2147483647 then
          Except.ok ⟨n, some fn, some ln, some em, some un, some pw⟩
        else Except.error "invalid value: integer out of range for i32" := rfl
    rw [hred, if_pos ⟨h1, h2⟩]

/-- Witness for `deserializeStaff_spec` at concrete payloads. -/
theorem deserializeStaff_spec_witness :
    deserializeStaff (Json.obj []) = Except.error "missing field staff_id" ∧
    deserializeStaff (Json.obj [("staff_id", Json.num 7)]) =
      Except.ok ⟨7, none, none, none, none, none⟩ ∧
    deserializeStaff (Json.obj
        [("staff_id", Json.num 7), ("first_name", Json.str "Ana"),
         ("last_name", Json.str "Lee"), ("email", Json.str "a@x.com"),
         ("username", Json.str "ana"), ("password", Json.str "p")]) =
      Except.ok ⟨7, some "Ana", some "Lee", some "a@x.com", some "ana", some "p"⟩ :=
  ⟨deserializeStaff_spec.1 [] rfl,
   deserializeStaff_spec.2.1 7 (by decide) (by decide),
   deserializeStaff_spec.2.2 7 "Ana" "Lee" "a@x.com" "ana" "p"
     (by decide) (by decide)⟩

/-- C2: resolution of the `page` query parameter: 0 when absent, 0 when the
text begins with `-` (whether or not it would parse), 0 when the text does
not parse as an i32, and the parsed value otherwise. -/
theorem resolvePage_spec :
    resolvePage none = 0 ∧
    (∀ s : String, startsWithNeg s = true → resolvePage (some s) = 0) ∧
    (∀ s : String, parseI32 s = none → resolvePage (some s) = 0) ∧
    (∀ (s : String) (v : Int), startsWithNeg s = false → parseI32 s = some v →
      resolvePage (some s) = v) := by
  refine ⟨rfl, ?_, ?_, ?_⟩
  · intro s h
    simp [resolvePage, h]
  · intro s h
    unfold resolvePage
    cases hn : startsWithNeg s <;> simp [h]
  · intro s v h1 h2
    simp [resolvePage, h1, h2]

/-- Witness for `resolvePage_spec` at concrete parameter texts. -/
theorem resolvePage_spec_witness :
    resolvePage (some "-3") = 0 ∧ resolvePage (some "abc") = 0 ∧
    resolvePage (some "12") = 12 :=
  ⟨resolvePage_spec.2.1 "-3" (by decide),
   resolvePage_spec.2.2.1 "abc" (by decide),
   resolvePage_spec.2.2.2 "12" 12 (by decide) (by decide)⟩

/-- C3 (counterexample): at page number `p = 214748365` (a value
`parse::<i32>` accepts), the i32 product `page_num * 10` overflows and
wraps, so the offset is `-2147483646`, not `10 * p = 2147483650`. -/
theorem computeOffset_wraps_at_214748365 :
    computeOffset 214748365 ≠ 10 * 214748365 := by decide

/-- C3 (amended): for every page number `p` with `0 ≤ p` and
`10 * p` within the i32 range (`p ≤ 214748364`), the row offset equals
`10 * p`; beyond that bound the i32 multiplication wraps. -/
theorem computeOffset_eq_ten_mul (p : Int) (h0 : 0 ≤ p) (h1 : p ≤ 214748364) :
    computeOffset p = 10 * p := by
  unfold computeOffset
  rw [wrap32_eq_self (p * 10) (by omega) (by omega)]
  ring

/-- Witness for `computeOffset_eq_ten_mul` at `p = 5`. -/
theorem computeOffset_eq_ten_mul_witness : computeOffset 5 = 10 * 5 :=
  computeOffset_eq_ten_mul 5 (by decide) (by decide)

/-- C4 (counterexample): `"2147483647"` resolves to page `2147483647`
(= i32 max), and there the i32 increment `page_num + 1` wraps, so the
`next` field is `-2147483648`, not `page + 1`. -/
theorem mkPagination_next_wraps_at_i32_max :
    resolvePage (some "2147483647") = 2147483647 ∧
    (mkPagination (resolvePage (some "2147483647"))).next = -2147483648 ∧
    (mkPagination (resolvePage (some "2147483647"))).next ≠
      resolvePage (some "2147483647") + 1 := by decide

/-- C4 (amended): for every resolved page number `p` below i32 max
(`0 ≤ p ≤ 2147483646`), the `Pagination` handed to the renderer is exactly
`{page := p, next := p + 1, prev := p - 1}` — `prev` is not clamped, so at
`p = 0` it is `-1`; at `p = 2147483647` the `next` increment wraps. -/
theorem mkPagination_spec :
    (∀ p : Int, 0 ≤ p → p ≤ 2147483646 →
      mkPagination p = ⟨p, p + 1, p - 1⟩) ∧
    (mkPagination 0).prev = -1 := by
  constructor
  · intro p h0 h1
    unfold mkPagination
    rw [wrap32_eq_self (p + 1) (by omega) (by omega),
        wrap32_eq_self (p - 1) (by omega) (by omega)]
  · decide

/-- Witness for `mkPagination_spec` at `p = 5`. -/
theorem mkPagination_spec_witness : mkPagination 5 = ⟨5, 6, 4⟩ :=
  mkPagination_spec.1 5 (by decide) (by decide)

/-- C5: the router dispatches by exact comparison on `(method, path)`:
`(GET, /staff)` to the read flow, `(POST, /staff)` to the create flow, and
every other pair panics (`Failed to match method and path`), never
producing a value-shaped response. -/
theorem router_spec :
    router "GET" "/staff" = RunResult.ok RouteTarget.readFlow ∧
    router "POST" "/staff" = RunResult.ok RouteTarget.createFlow ∧
    ∀ method path : String,
      ¬(method = "GET" ∧ path = "/staff") →
      ¬(method = "POST" ∧ path = "/staff") →
      router method path =
        RunResult.panicked "Failed to match method and path" := by
  refine ⟨rfl, rfl, ?_⟩
  intro m p h1 h2
  unfold router
  split <;> simp_all

/-- Witness for `router_spec` at an unmatched pair. -/
theorem router_spec_witness :
    router "DELETE" "/staff" =
      RunResult.panicked "Failed to match method and path" :=
  router_spec.2.2 "DELETE" "/staff" (by decide) (by decide)

/-- C6: when the store has no row matching the requested `staff_id`, the
single-lookup flow panics (the empty `exec_first` result is `.unwrap()`ed);
it never returns a zero-length record list. -/
theorem get_single_staff_miss_panics :
    ∀ (db : List DbRow) (sid : Int),
      ((∀ r ∈ db, r.staff_id ≠ sid) →
        get_single_staff db sid =
          RunResult.panicked "called Option::unwrap on a None value") ∧
      get_single_staff db sid ≠ RunResult.ok [] := by
  intro db sid
  constructor
  · intro h
    have hf : (db.filter fun r => r.staff_id == sid) = [] := by
      rw [List.filter_eq_nil_iff]
      intro r hr
      simpa using h r hr
    simp [get_single_staff, hf]
  · unfold get_single_staff
    split <;> simp

/-- Witness for `get_single_staff_miss_panics` on an empty store. -/
theorem get_single_staff_miss_panics_witness :
    get_single_staff [] 42 =
      RunResult.panicked "called Option::unwrap on a None value" :=
  (get_single_staff_miss_panics [] 42).1 (by simp)

/-- C10: whenever the single lookup returns successfully, the returned
record list has length exactly 1. -/
theorem get_single_staff_ok_length_one :
    ∀ (db : List DbRow) (sid : Int) (l : List Staff),
      get_single_staff db sid = RunResult.ok l → l.length = 1 := by
  intro db sid l h
  unfold get_single_staff at h
  split at h
  · exact absurd h (by simp)
  · injection h with h'
    subst h'
    rfl

/-- Witness for `get_single_staff_ok_length_one` on a one-row store. -/
theorem get_single_staff_ok_length_one_witness :
    ([(⟨7, none, none, none, none, none⟩ : Staff)]).length = 1 :=
  get_single_staff_ok_length_one
    [⟨7, none, none, none, none, none, 1, 61, 0⟩] 7
    [⟨7, none, none, none, none, none⟩] rfl

/-- C7: for every create request whose payload parses (and whose insert
statement succeeds — the pure store model always accepts the single
parameterized insert), the HTTP response has status 303, a `Location`
header equal to `/staff`, and an empty body; the response is a constant,
so the store-assigned identity of the new record is not part of it. -/
theorem post_staff_success_response :
    ∀ (j : Json) (db : List DbRow) (ts : Int) (st : Staff),
      deserializeStaff j = Except.ok st →
      post_staff (some j) db ts =
        RunResult.ok (insertStaff db st ts,
          { status := 303, headers := [("Location", "/staff")], body := "" }) := by
  intro j db ts st h
  simp [post_staff, h]

/-- Witness for `post_staff_success_response` at a concrete payload. -/
theorem post_staff_success_response_witness :
    post_staff (some (Json.obj [("staff_id", Json.num 7)])) [] 0 =
      RunResult.ok ([⟨1, none, none, none, none, none, 1, 61, 0⟩],
        { status := 303, headers := [("Location", "/staff")], body := "" }) :=
  post_staff_success_response (Json.obj [("staff_id", Json.num 7)]) [] 0
    ⟨7, none, none, none, none, none⟩ rfl

/-- C8: for every offset, the page-listing fetch returns at most 10 records
(`LIMIT 10`), the selected rows are ordered by `last_update` descending,
they are the slice of the ordered scan that skips the first `offset` rows
(`OFFSET offset`), and the ordered scan is a permutation of the whole
table (nothing added or lost by ordering). -/
theorem fetchPage_spec :
    ∀ (db : List DbRow) (offset : Nat),
      (fetchPage db offset).length ≤ 10 ∧
      List.Sorted updDescRel (selectPage db offset) ∧
      selectPage db offset = ((sortByUpdateDesc db).drop offset).take 10 ∧
      List.Perm (sortByUpdateDesc db) db := by
  intro db offset
  refine ⟨?_, ?_, rfl, List.perm_insertionSort updDescRel db⟩
  · unfold fetchPage selectPage
    rw [List.length_map]
    exact (List.length_take_le 10 _)
  · have hs : List.Sorted updDescRel (sortByUpdateDesc db) :=
      List.sorted_insertionSort updDescRel db
    exact List.Pairwise.sublist
      ((List.take_sublist _ _).trans (List.drop_sublist _ _)) hs

/-- C9: the `page` parameter is parsed as a 32-bit signed integer, so every
parameter string whose numeric value exceeds `2147483647` fails parsing and
resolves to page 0: accepted page numbers are bounded by i32 max. -/
theorem parseI32_overflow_resolves_zero :
    ∀ (s : String) (v : Nat), numericVal s = some v → 2147483647 < v →
      parseI32 s = none ∧ resolvePage (some s) = 0 := by
  intro s v hnv hv
  have hnle : ¬ (v ≤ 2147483647) := by omega
  unfold numericVal at hnv
  rcases hd : s.data with _ | ⟨c, rest⟩ <;> rw [hd] at hnv
  · simp at hnv
  · replace hnv : (if c = '+' then digitsVal rest
        else digitsVal (c :: rest)) = some v := hnv
    by_cases hc : c = '+'
    · rw [if_pos hc] at hnv
      have hparse : parseI32 s = none := by
        simp [parseI32, hd, hc, hnv, hnle]
      have hstart : startsWithNeg s = false := by
        simp [startsWithNeg, hd, hc]
      exact ⟨hparse, by simp [resolvePage, hstart, hparse]⟩
    · rw [if_neg hc] at hnv
      have hcm : c ≠ '-' := by
        intro hceq
        subst hceq
        have hdig : ('-').isDigit = false := by decide
        simp [digitsVal, digitsValAux, hdig] at hnv
      have hparse : parseI32 s = none := by
        simp [parseI32, hd, hc, hcm, hnv, hnle]
      have hstart : startsWithNeg s = false := by
        simp [startsWithNeg, hd, hcm]
      exact ⟨hparse, by simp [resolvePage, hstart, hparse]⟩

/-- Witness for `parseI32_overflow_resolves_zero` at `"2147483648"`. -/
theorem parseI32_overflow_resolves_zero_witness :
    parseI32 "2147483648" = none ∧ resolvePage (some "2147483648") = 0 :=
  parseI32_overflow_resolves_zero "2147483648" 2147483648
    (by decide) (by decide)
